import Mathlib

/-!
Verification of the deterministic load-scoring pipeline of the
cognitive-calendar repository (`src/server/googleCalendar.js`, functions
`computeEventLoads`, `computeSingleEvent`, `computeContextSwitch`,
`mapGapDampener`, `mapSocialLoad`, `getTimeOfDay`, `clamp`,
`buildDailySummary`, and the constant table `BASELINES`), shallowly
embedded in Lean.

Modelling conventions:
* JavaScript numbers are modelled as exact rationals `ℚ`; `toFixed(3)`
  followed by `Number(...)` is modelled as rounding half up to 3 decimal
  places.
* Timestamps are modelled as the time value produced by `new Date(s)`:
  milliseconds since the epoch, an `ℤ`.  `Date.prototype.getHours` is
  modelled in UTC (`(t / 3600000) % 24`); only the hour thresholds matter
  to the pipeline.
* Subtraction of two `Date`s yields the millisecond difference.
* A second model (`JSNum := Option ℚ`, with `none` standing for NaN) is
  used where NaN propagation is the point: `new Date` applied to an
  unparseable string yields an invalid date whose time value is NaN, and
  every arithmetic operation, `Math.max`/`Math.min`, `toFixed`, and
  comparison then follows IEEE NaN semantics (operations propagate NaN,
  comparisons with NaN are false).
* JavaScript object lookups `table[key] ?? d` are modelled as association
  list lookup with a default; `x || d` (falsy check) additionally treats
  a looked-up `0` (and an attendee count of `0`) as absent.
-/

namespace CogCal

/-- The `classification` object attached to each meeting before scoring
(produced upstream; the pipeline takes it as given). -/
structure Classification where
  meeting_type : String
  role : String
  emotional_intensity : String
  topic_tags : List String
deriving Repr, DecidableEq

/-- A classified meeting as consumed by `computeEventLoads`: `start` and
`end` are the parsed time values (ms since epoch) of the ISO timestamps. -/
structure ClassifiedMeeting where
  start : ℤ
  «end» : ℤ
  attendeeCount : ℕ
  classification : Classification
deriving Repr, DecidableEq

/-- The `BASELINES` constant of `googleCalendar.js`: string-keyed weight
tables, modelled as association lists. -/
structure Baselines where
  meetingType : List (String × ℚ)
  meetingTypeScalar : List (String × ℚ)
  roleLoad : List (String × ℚ)
  emotionalLoad : List (String × ℚ)
  socialLoad : List (String × ℚ)
  topicChangeCost : List (String × ℚ)
  gapTimeDampener : List (String × ℚ)
  timeOfDayMultiplier : List (String × ℚ)

/-- Model of `BASELINES` from `googleCalendar.js`, lines 161–224, verbatim. -/
def BASELINES : Baselines where
  meetingType :=
    [("standup", 0.2), ("status", 0.3), ("demo", 0.4), ("planning", 0.6),
     ("brainstorming", 0.7), ("design_review", 0.8), ("decision", 0.9),
     ("conflict", 1.0), ("sync", 0.15), ("social", 0.05)]
  meetingTypeScalar :=
    [("standup", 1.0), ("status", 1.0), ("demo", 1.0), ("planning", 1.0),
     ("brainstorming", 1.0), ("design_review", 1.0), ("decision", 1.0),
     ("conflict", 1.0), ("sync", 0.3), ("social", 0.12)]
  roleLoad :=
    [("listener", 0.3), ("occasional_contributor", 0.5), ("contributor", 0.8),
     ("decision_maker", 1.0)]
  emotionalLoad :=
    [("routine", 0.2), ("external", 0.4), ("feedback", 0.6),
     ("performance", 0.8), ("conflict", 1.0)]
  socialLoad :=
    [("1-2", 0.2), ("3-5", 0.4), ("6-10", 0.6), ("11-20", 0.8), ("20+", 1.0)]
  topicChangeCost :=
    [("same_project", 0.0), ("related_domain", 0.3), ("different_domain", 0.7),
     ("unrelated", 1.0)]
  gapTimeDampener :=
    [("0-5", 1.0), ("5-15", 0.8), ("15-30", 0.5), ("30+", 0.2)]
  timeOfDayMultiplier :=
    [("morning", 1.0), ("midday", 1.1), ("afternoon", 1.2), ("evening", 1.4)]

/-- Model of `table[key] ?? dflt`: JavaScript nullish-coalesced property lookup on a
string-keyed object literal. -/
def lookupQ (table : List (String × ℚ)) (key : String) (dflt : ℚ) : ℚ :=
  (table.lookup key).getD dflt

/-- Model of `table[key] || dflt`: falsy-coalesced lookup (`0` counts as absent, as
`||` does in JavaScript). -/
def lookupOrFalsy (table : List (String × ℚ)) (key : String) (dflt : ℚ) : ℚ :=
  match table.lookup key with
  | some v => if v = 0 then dflt else v
  | none => dflt

/-- Model of `Number(value.toFixed(3))`: round to 3 decimal places (half up). -/
def round3 (value : ℚ) : ℚ := (round (value * 1000) : ℤ) / 1000

/-- Model of `clamp` from `googleCalendar.js`, lines 600–602:
`Math.max(0, Math.min(1, Number(value.toFixed(3))))`. -/
def clamp (value : ℚ) : ℚ := max 0 (min 1 (round3 value))

/-- Model of `mapGapDampener` from `googleCalendar.js`, lines 577–582. -/
def mapGapDampener (minutes : ℚ) : ℚ :=
  if minutes ≤ 5 then lookupQ BASELINES.gapTimeDampener "0-5" 0
  else if minutes ≤ 15 then lookupQ BASELINES.gapTimeDampener "5-15" 0
  else if minutes ≤ 30 then lookupQ BASELINES.gapTimeDampener "15-30" 0
  else lookupQ BASELINES.gapTimeDampener "30+" 0

/-- Model of `mapSocialLoad` from `googleCalendar.js`, lines 584–590. -/
def mapSocialLoad (attendees : ℚ) : ℚ :=
  if attendees ≤ 2 then lookupQ BASELINES.socialLoad "1-2" 0
  else if attendees ≤ 5 then lookupQ BASELINES.socialLoad "3-5" 0
  else if attendees ≤ 10 then lookupQ BASELINES.socialLoad "6-10" 0
  else if attendees ≤ 20 then lookupQ BASELINES.socialLoad "11-20" 0
  else lookupQ BASELINES.socialLoad "20+" 0

/-- The hour of day of a time value, in UTC (model of `date.getHours()`). -/
def getHours (t : ℤ) : ℤ := (t / 3600000) % 24

/-- The hour-threshold chain of `getTimeOfDay` (`googleCalendar.js`,
lines 592–598). -/
def timeOfDayOfHour (hour : ℤ) : String :=
  if hour < 12 then "morning"
  else if hour < 15 then "midday"
  else if hour < 18 then "afternoon"
  else "evening"

/-- Model of `getTimeOfDay` from `googleCalendar.js`, lines 592–598. -/
def getTimeOfDay (t : ℤ) : String := timeOfDayOfHour (getHours t)

/-- The `explanation` record built by `computeSingleEvent`
(`googleCalendar.js`, lines 544–554). -/
structure Explanation where
  complexity : ℚ
  roleLoad : ℚ
  emotionalLoad : ℚ
  socialLoad : ℚ
  mentalLoad : ℚ
  meetingTypeScalar : ℚ
  contextSwitchCost : ℚ
  timeOfDayMultiplier : ℚ
  topicTags : List String
deriving Repr, DecidableEq

/-- The object returned by `computeSingleEvent`: the spread input event
(kept as the field `ev`) plus all computed fields, before the capacity
fold attaches `capacityRemaining`. -/
structure Computed where
  ev : ClassifiedMeeting
  durationMinutes : ℚ
  mentalLoad : ℚ
  contextSwitchCost : ℚ
  totalLoad : ℚ
  recoveryMinutes : ℚ
  timeOfDay : String
  socialLoad : ℚ
  capacityCost : ℚ
  explanation : Explanation
deriving Repr, DecidableEq

/-- An enriched meeting: the `computeSingleEvent` output with the
`capacityRemaining` snapshot attached by `computeEventLoads`. -/
structure Enriched extends Computed where
  capacityRemaining : ℚ
deriving Repr, DecidableEq

/-- Model of `computeContextSwitch` from `googleCalendar.js`, lines 558–575.
`prev` is the previously produced enriched meeting, if any. -/
def computeContextSwitch (event : ClassifiedMeeting) (prev : Option Enriched) : ℚ :=
  match prev with
  | none => 0
  | some p =>
    let overlap := event.classification.topic_tags.any fun tag =>
      p.ev.classification.topic_tags.contains tag
    let topicCost :=
      if overlap then lookupQ BASELINES.topicChangeCost "related_domain" 0
      else lookupQ BASELINES.topicChangeCost "unrelated" 0
    let gapMinutes := max 0 (((event.start : ℚ) - (p.ev.«end» : ℚ)) / 60000)
    let gapDampener := mapGapDampener gapMinutes
    clamp (topicCost * gapDampener)

/-- The weighted-sum core of step 3 of the per-event calculator
(`googleCalendar.js`, lines 518–520). -/
def mentalLoadRawOf (durationMinutes complexity roleLoad emotionalLoad socialLoad : ℚ) : ℚ :=
  (durationMinutes / 60) *
    (0.35 * complexity + 0.25 * roleLoad + 0.25 * emotionalLoad + 0.15 * socialLoad)

/-- Model of `computeSingleEvent` from `googleCalendar.js`, lines 507–556. -/
def computeSingleEvent (event : ClassifiedMeeting) (prev : Option Enriched) : Computed :=
  let durationMinutes := max 15 (((event.«end» : ℚ) - (event.start : ℚ)) / 60000)
  let complexity := lookupQ BASELINES.meetingType event.classification.meeting_type 0.3
  let roleLoad := lookupQ BASELINES.roleLoad event.classification.role 0.5
  let emotionalLoad :=
    lookupQ BASELINES.emotionalLoad event.classification.emotional_intensity 0.4
  let socialLoad :=
    mapSocialLoad (if event.attendeeCount = 0 then 1 else (event.attendeeCount : ℚ))
  let mentalLoadRaw :=
    mentalLoadRawOf durationMinutes complexity roleLoad emotionalLoad socialLoad
  let meetingTypeScalar :=
    lookupQ BASELINES.meetingTypeScalar event.classification.meeting_type 1.0
  let mentalLoad := clamp (mentalLoadRaw * meetingTypeScalar)
  let contextSwitchCost := computeContextSwitch event prev
  let totalLoad := clamp (mentalLoad + contextSwitchCost)
  let timeOfDay := getTimeOfDay event.start
  let recoveryMinutes :=
    totalLoad * 20 * lookupOrFalsy BASELINES.timeOfDayMultiplier timeOfDay 1.0
  let capacityCost := totalLoad * 100
  { ev := event
    durationMinutes := durationMinutes
    mentalLoad := mentalLoad
    contextSwitchCost := contextSwitchCost
    totalLoad := totalLoad
    recoveryMinutes := recoveryMinutes
    timeOfDay := timeOfDay
    socialLoad := socialLoad
    capacityCost := capacityCost
    explanation :=
      { complexity := complexity
        roleLoad := roleLoad
        emotionalLoad := emotionalLoad
        socialLoad := socialLoad
        mentalLoad := mentalLoad
        meetingTypeScalar := meetingTypeScalar
        contextSwitchCost := contextSwitchCost
        timeOfDayMultiplier := lookupOrFalsy BASELINES.timeOfDayMultiplier timeOfDay 1.0
        topicTags := event.classification.topic_tags } }

/-- The loop body of `computeEventLoads` (`googleCalendar.js`, lines
488–505): `prev` is `enriched[i-1]`, `runningCapacity` the fold state. -/
def computeEventLoadsAux (prev : Option Enriched) (runningCapacity : ℚ) :
    List ClassifiedMeeting → List Enriched
  | [] => []
  | event :: rest =>
    let computed := computeSingleEvent event prev
    let cap := max 0 (runningCapacity - computed.capacityCost)
    let enriched : Enriched := { toComputed := computed, capacityRemaining := cap }
    enriched :: computeEventLoadsAux (some enriched) cap rest

/-- Model of `computeEventLoads` from `googleCalendar.js`, lines 488–505:
`runningCapacity` starts at 100, no predecessor before the first event. -/
def computeEventLoads (events : List ClassifiedMeeting) : List Enriched :=
  computeEventLoadsAux none 100 events

/-- The summary object of `buildDailySummary`. -/
structure DailySummary where
  totalLoad : ℚ
  capacityRemaining : ℚ
  highRisk : Bool
deriving Repr, DecidableEq

/-- Model of `buildDailySummary` from `googleCalendar.js`, lines 604–615. -/
def buildDailySummary (events : List Enriched) : DailySummary :=
  let totalLoad :=
    clamp ((events.foldl (fun sum event => sum + event.totalLoad) 0) /
      max (events.length : ℚ) 1)
  let capacityRemaining :=
    max 0 (100 - events.foldl (fun sum e => sum + e.capacityCost) 0)
  { totalLoad := totalLoad
    capacityRemaining := capacityRemaining
    highRisk := decide (capacityRemaining < 20) }

/-- The `{ events, summary }` response body of the pipeline entry point
(`src/server/index.js`, lines 101–104). -/
structure PipelineOutput where
  events : List Enriched
  summary : DailySummary
deriving Repr, DecidableEq

/-- The pipeline entry point (`src/server/index.js`, lines 101–104):
enrich the classified sequence, then reduce it to the daily summary. -/
def processEvents (classified : List ClassifiedMeeting) : PipelineOutput :=
  let enriched := computeEventLoads classified
  { events := enriched, summary := buildDailySummary enriched }

/-! ## The NaN-faithful model

The functions above assume the two timestamps of every meeting parsed
successfully.  The code itself never checks: `new Date(event.start)` on an
unparseable string yields an invalid date whose time value is NaN, and the
arithmetic then silently propagates NaN.  The following second copy of the
pipeline makes that explicit: a JavaScript number is `Option ℚ` with `none`
standing for NaN, and a parsed timestamp is `Option ℤ` with `none` standing
for an invalid date. -/

/-- A JavaScript number: `none` is NaN. -/
abbrev JSNum := Option ℚ

/-- NaN-propagating addition. -/
def jAdd : JSNum → JSNum → JSNum
  | some a, some b => some (a + b)
  | _, _ => none

/-- NaN-propagating subtraction. -/
def jSub : JSNum → JSNum → JSNum
  | some a, some b => some (a - b)
  | _, _ => none

/-- NaN-propagating multiplication. -/
def jMul : JSNum → JSNum → JSNum
  | some a, some b => some (a * b)
  | _, _ => none

/-- NaN-propagating division.  Division by zero yields an infinity in
JavaScript; it is mapped to `none` here, but no divisor in the pipeline is
ever zero, so the case is never exercised. -/
def jDiv : JSNum → JSNum → JSNum
  | some a, some b => if b = 0 then none else some (a / b)
  | _, _ => none

/-- Model of `Math.max` of two arguments: NaN if either argument is NaN. -/
def jMax : JSNum → JSNum → JSNum
  | some a, some b => some (max a b)
  | _, _ => none

/-- Model of `Math.min` of two arguments: NaN if either argument is NaN. -/
def jMin : JSNum → JSNum → JSNum
  | some a, some b => some (min a b)
  | _, _ => none

/-- Model of `a < b` on JavaScript numbers: false when either side is NaN. -/
def jLt : JSNum → JSNum → Bool
  | some a, some b => decide (a < b)
  | _, _ => false

/-- Model of `a <= b` on JavaScript numbers: false when either side is NaN. -/
def jLe : JSNum → JSNum → Bool
  | some a, some b => decide (a ≤ b)
  | _, _ => false

/-- Model of `Number(v.toFixed(3))`: `(NaN).toFixed(3)` is `"NaN"`, which
`Number` turns back into NaN. -/
def jToFixed3 : JSNum → JSNum
  | some v => some (round3 v)
  | none => none

/-- Model of `clamp` under NaN semantics: `Math.max(0, Math.min(1, NaN))` is NaN. -/
def clampJS (value : JSNum) : JSNum := jMax (some 0) (jMin (some 1) (jToFixed3 value))

/-- Subtraction of two `Date`s (millisecond difference); NaN when either
date is invalid. -/
def jDateSub : Option ℤ → Option ℤ → JSNum
  | some a, some b => some ((a : ℚ) - (b : ℚ))
  | _, _ => none

/-- A classified meeting whose timestamps may have failed to parse:
`none` models `new Date` of a malformed or unparseable string. -/
structure RawEvent where
  start : Option ℤ
  «end» : Option ℤ
  attendeeCount : ℕ
  classification : Classification
deriving Repr, DecidableEq

/-- Model of `mapGapDampener` under NaN semantics: every `<=` test on NaN is false,
so a NaN gap falls through to the `"30+"` bucket. -/
def mapGapDampenerJS (minutes : JSNum) : ℚ :=
  if jLe minutes (some 5) then lookupQ BASELINES.gapTimeDampener "0-5" 0
  else if jLe minutes (some 15) then lookupQ BASELINES.gapTimeDampener "5-15" 0
  else if jLe minutes (some 30) then lookupQ BASELINES.gapTimeDampener "15-30" 0
  else lookupQ BASELINES.gapTimeDampener "30+" 0

/-- Model of `date.getHours()` of a possibly invalid date: NaN when invalid. -/
def getHoursJS : Option ℤ → JSNum
  | some t => some (((t / 3600000) % 24 : ℤ) : ℚ)
  | none => none

/-- Model of `getTimeOfDay` under NaN semantics: every `<` test on NaN is false, so
an invalid date lands in the `"evening"` bucket. -/
def getTimeOfDayJS (t : Option ℤ) : String :=
  if jLt (getHoursJS t) (some 12) then "morning"
  else if jLt (getHoursJS t) (some 15) then "midday"
  else if jLt (getHoursJS t) (some 18) then "afternoon"
  else "evening"

/-- The `explanation` record in the NaN model. -/
structure JSExplanation where
  complexity : ℚ
  roleLoad : ℚ
  emotionalLoad : ℚ
  socialLoad : ℚ
  mentalLoad : JSNum
  meetingTypeScalar : ℚ
  contextSwitchCost : JSNum
  timeOfDayMultiplier : ℚ
  topicTags : List String
deriving Repr, DecidableEq

/-- The `computeSingleEvent` result in the NaN model. -/
structure JSComputed where
  ev : RawEvent
  durationMinutes : JSNum
  mentalLoad : JSNum
  contextSwitchCost : JSNum
  totalLoad : JSNum
  recoveryMinutes : JSNum
  timeOfDay : String
  socialLoad : ℚ
  capacityCost : JSNum
  explanation : JSExplanation
deriving Repr, DecidableEq

/-- An enriched meeting in the NaN model. -/
structure JSEnriched extends JSComputed where
  capacityRemaining : JSNum
deriving Repr, DecidableEq

/-- Model of `computeContextSwitch` in the NaN model (`googleCalendar.js`, lines
558–575): the weights are plain numbers, so only the gap computation can
see NaN, and `Math.max(0, NaN)` keeps it NaN before the bucket lookup. -/
def computeContextSwitchJS (event : RawEvent) (prev : Option JSEnriched) : JSNum :=
  match prev with
  | none => some 0
  | some p =>
    let overlap := event.classification.topic_tags.any fun tag =>
      p.ev.classification.topic_tags.contains tag
    let topicCost :=
      if overlap then lookupQ BASELINES.topicChangeCost "related_domain" 0
      else lookupQ BASELINES.topicChangeCost "unrelated" 0
    let gapMinutes := jMax (some 0) (jDiv (jDateSub event.start p.ev.«end») (some 60000))
    let gapDampener := mapGapDampenerJS gapMinutes
    clampJS (jMul (some topicCost) (some gapDampener))

/-- Model of `computeSingleEvent` in the NaN model (`googleCalendar.js`, lines
507–556). -/
def computeSingleEventJS (event : RawEvent) (prev : Option JSEnriched) : JSComputed :=
  let durationMinutes :=
    jMax (some 15) (jDiv (jDateSub event.«end» event.start) (some 60000))
  let complexity := lookupQ BASELINES.meetingType event.classification.meeting_type 0.3
  let roleLoad := lookupQ BASELINES.roleLoad event.classification.role 0.5
  let emotionalLoad :=
    lookupQ BASELINES.emotionalLoad event.classification.emotional_intensity 0.4
  let socialLoad :=
    mapSocialLoad (if event.attendeeCount = 0 then 1 else (event.attendeeCount : ℚ))
  let mentalLoadRaw :=
    jMul (jDiv durationMinutes (some 60))
      (some (0.35 * complexity + 0.25 * roleLoad + 0.25 * emotionalLoad +
        0.15 * socialLoad))
  let meetingTypeScalar :=
    lookupQ BASELINES.meetingTypeScalar event.classification.meeting_type 1.0
  let mentalLoad := clampJS (jMul mentalLoadRaw (some meetingTypeScalar))
  let contextSwitchCost := computeContextSwitchJS event prev
  let totalLoad := clampJS (jAdd mentalLoad contextSwitchCost)
  let timeOfDay := getTimeOfDayJS event.start
  let recoveryMinutes :=
    jMul (jMul totalLoad (some 20))
      (some (lookupOrFalsy BASELINES.timeOfDayMultiplier timeOfDay 1.0))
  let capacityCost := jMul totalLoad (some 100)
  { ev := event
    durationMinutes := durationMinutes
    mentalLoad := mentalLoad
    contextSwitchCost := contextSwitchCost
    totalLoad := totalLoad
    recoveryMinutes := recoveryMinutes
    timeOfDay := timeOfDay
    socialLoad := socialLoad
    capacityCost := capacityCost
    explanation :=
      { complexity := complexity
        roleLoad := roleLoad
        emotionalLoad := emotionalLoad
        socialLoad := socialLoad
        mentalLoad := mentalLoad
        meetingTypeScalar := meetingTypeScalar
        contextSwitchCost := contextSwitchCost
        timeOfDayMultiplier := lookupOrFalsy BASELINES.timeOfDayMultiplier timeOfDay 1.0
        topicTags := event.classification.topic_tags } }

/-- The `computeEventLoads` loop in the NaN model: `Math.max(0, cap - NaN)`
is NaN, so a single bad meeting turns the running capacity into NaN for the
rest of the fold. -/
def computeEventLoadsJSAux (prev : Option JSEnriched) (runningCapacity : JSNum) :
    List RawEvent → List JSEnriched
  | [] => []
  | event :: rest =>
    let computed := computeSingleEventJS event prev
    let cap := jMax (some 0) (jSub runningCapacity computed.capacityCost)
    let enriched : JSEnriched := { toJSComputed := computed, capacityRemaining := cap }
    enriched :: computeEventLoadsJSAux (some enriched) cap rest

/-- Model of `computeEventLoads` in the NaN model. -/
def computeEventLoadsJS (events : List RawEvent) : List JSEnriched :=
  computeEventLoadsJSAux none (some 100) events

/-- The daily summary in the NaN model; `highRisk` is `NaN < 20`, i.e.
false, when the capacity is NaN. -/
structure JSDailySummary where
  totalLoad : JSNum
  capacityRemaining : JSNum
  highRisk : Bool
deriving Repr, DecidableEq

/-- Model of `buildDailySummary` in the NaN model (`googleCalendar.js`, lines
604–615). -/
def buildDailySummaryJS (events : List JSEnriched) : JSDailySummary :=
  let totalLoad :=
    clampJS (jDiv (events.foldl (fun sum event => jAdd sum event.totalLoad) (some 0))
      (some (max (events.length : ℚ) 1)))
  let capacityRemaining :=
    jMax (some 0)
      (jSub (some 100) (events.foldl (fun sum e => jAdd sum e.capacityCost) (some 0)))
  { totalLoad := totalLoad
    capacityRemaining := capacityRemaining
    highRisk := jLt capacityRemaining (some 20) }

/-- The `{ events, summary }` pipeline response in the NaN model. -/
structure JSPipelineOutput where
  events : List JSEnriched
  summary : JSDailySummary
deriving Repr, DecidableEq

/-- The pipeline entry point in the NaN model (`src/server/index.js`,
lines 101–104). -/
def processEventsJS (classified : List RawEvent) : JSPipelineOutput :=
  let enriched := computeEventLoadsJS classified
  { events := enriched, summary := buildDailySummaryJS enriched }

/-! ## Spec-side definitions and concrete inputs

Definitions in this section follow the wording of the spec (for refinement
comparisons against the code-derived definitions above) or fix concrete
inputs used by witnesses and counterexamples. -/

/-- The capacity scan as the spec states it: start from the incoming
capacity, update by `max (0, capacity − cost)` at each cost, and record the
post-update value. -/
def capScan (cap : ℚ) : List ℚ → List ℚ
  | [] => []
  | cost :: rest =>
    let c2 := max 0 (cap - cost)
    c2 :: capScan c2 rest

/-- The attendee-count bucket table as the spec states it (§4.1). -/
def socialLoadSpec (n : ℚ) : ℚ :=
  if n ≤ 2 then 0.2 else if n ≤ 5 then 0.4 else if n ≤ 10 then 0.6
  else if n ≤ 20 then 0.8 else 1

/-- The gap-minutes bucket table as the spec states it (§4.1). -/
def gapDampenerSpec (m : ℚ) : ℚ :=
  if m ≤ 5 then 1 else if m ≤ 15 then 0.8 else if m ≤ 30 then 0.5 else 0.2

/-- The hour-of-day bucket table as the spec states it (§4.1): bucket name
and multiplier. -/
def timeOfDaySpec (h : ℤ) : String × ℚ :=
  if h < 12 then ("morning", 1) else if h < 15 then ("midday", 1.1)
  else if h < 18 then ("afternoon", 1.2) else ("evening", 1.4)

/-- The context-switch model as the spec states it (§4.3): 0 with no
predecessor; otherwise `clamp(topicCost × gapDampener)` where `topicCost`
is 0.3 when the current and previous topic-tag sets share at least one tag
(case-sensitive exact string match) and 1.0 otherwise, and the gap
dampener is the gap bucket of `max(0, (currentStart − previousEnd) in
minutes)`. -/
def contextSwitchSpec (event : ClassifiedMeeting) (prev : Option Enriched) : ℚ :=
  match prev with
  | none => 0
  | some p =>
    let topicCost : ℚ :=
      if ∃ tag ∈ event.classification.topic_tags,
          tag ∈ p.ev.classification.topic_tags then 0.3 else 1
    let gapMinutes : ℚ := max 0 (((event.start : ℚ) - (p.ev.«end» : ℚ)) / 60000)
    clamp (topicCost * gapDampenerSpec gapMinutes)

/-- The worked example of spec §8: a 30-minute standup (9:00–9:30 UTC),
role listener, routine intensity, 2 attendees, first of the day. -/
def c2event : ClassifiedMeeting where
  start := 32400000
  «end» := 34200000
  attendeeCount := 2
  classification :=
    { meeting_type := "standup", role := "listener"
      emotional_intensity := "routine", topic_tags := ["general"] }

/-- A concrete meeting none of whose labels is in any table. -/
def c8event : ClassifiedMeeting where
  start := 0
  «end» := 3600000
  attendeeCount := 3
  classification :=
    { meeting_type := "offsite", role := "observer"
      emotional_intensity := "tense", topic_tags := [] }

/-- A concrete meeting for the C10 witness: a one-hour planning meeting. -/
def c10event : ClassifiedMeeting where
  start := 36000000
  «end» := 39600000
  attendeeCount := 6
  classification :=
    { meeting_type := "planning", role := "contributor"
      emotional_intensity := "feedback", topic_tags := ["roadmap"] }

/-- A concrete input whose `start` timestamp is unparseable (`new Date`
yields an invalid date, time value NaN); the end parses to 10:00 UTC. -/
def c1BadEvent : RawEvent where
  start := none
  «end» := some 36000000
  attendeeCount := 2
  classification :=
    { meeting_type := "status", role := "contributor"
      emotional_intensity := "routine", topic_tags := ["general"] }

/-! ## Shared lemmas -/

theorem clamp_nonneg (x : ℚ) : 0 ≤ clamp x := le_max_left _ _

theorem clamp_le_one (x : ℚ) : clamp x ≤ 1 :=
  max_le (by norm_num) (min_le_left _ _)

theorem computeContextSwitch_nonneg (e : ClassifiedMeeting) (p : Option Enriched) :
    0 ≤ computeContextSwitch e p := by
  cases p with
  | none => simp [computeContextSwitch]
  | some p => exact clamp_nonneg _

theorem computeContextSwitch_le_one (e : ClassifiedMeeting) (p : Option Enriched) :
    computeContextSwitch e p ≤ 1 := by
  cases p with
  | none => simp [computeContextSwitch]
  | some p => exact clamp_le_one _

theorem computeSingleEvent_durationMinutes_eq (e : ClassifiedMeeting)
    (p : Option Enriched) : (computeSingleEvent e p).durationMinutes =
      max 15 (((e.«end» : ℚ) - (e.start : ℚ)) / 60000) := rfl

theorem computeSingleEvent_contextSwitchCost_eq (e : ClassifiedMeeting)
    (p : Option Enriched) :
    (computeSingleEvent e p).contextSwitchCost = computeContextSwitch e p := rfl

theorem computeSingleEvent_mentalLoad_clamp (e : ClassifiedMeeting)
    (p : Option Enriched) : ∃ x, (computeSingleEvent e p).mentalLoad = clamp x :=
  ⟨_, rfl⟩

theorem computeSingleEvent_totalLoad_clamp (e : ClassifiedMeeting)
    (p : Option Enriched) : ∃ x, (computeSingleEvent e p).totalLoad = clamp x :=
  ⟨_, rfl⟩

theorem computeSingleEvent_capacityCost_eq (e : ClassifiedMeeting)
    (p : Option Enriched) :
    (computeSingleEvent e p).capacityCost = (computeSingleEvent e p).totalLoad * 100 := rfl

theorem computeSingleEvent_capacityCost_nonneg (e : ClassifiedMeeting)
    (p : Option Enriched) : 0 ≤ (computeSingleEvent e p).capacityCost := by
  obtain ⟨x, hx⟩ := computeSingleEvent_totalLoad_clamp e p
  rw [computeSingleEvent_capacityCost_eq, hx]
  have := clamp_nonneg x
  linarith

/-- Every element produced by the `computeEventLoads` loop is a
`computeSingleEvent` result with some `capacityRemaining` attached. -/
theorem computeEventLoadsAux_forall (P : Enriched → Prop)
    (hP : ∀ e p c, P { toComputed := computeSingleEvent e p, capacityRemaining := c }) :
    ∀ (evs : List ClassifiedMeeting) (prev : Option Enriched) (cap : ℚ),
      (computeEventLoadsAux prev cap evs).Forall P := by
  intro evs
  induction evs with
  | nil => intro prev cap; simp [computeEventLoadsAux]
  | cons e rest ih =>
    intro prev cap
    simp only [computeEventLoadsAux, List.forall_cons]
    exact ⟨hP e prev _, ih _ _⟩

theorem computeEventLoadsAux_map_capacityRemaining :
    ∀ (evs : List ClassifiedMeeting) (prev : Option Enriched) (cap : ℚ),
      (computeEventLoadsAux prev cap evs).map (fun e => e.capacityRemaining) =
        capScan cap ((computeEventLoadsAux prev cap evs).map (fun e => e.capacityCost)) := by
  intro evs
  induction evs with
  | nil => intro prev cap; simp [computeEventLoadsAux, capScan]
  | cons e rest ih =>
    intro prev cap
    simp only [computeEventLoadsAux, List.map_cons, capScan]
    exact congrArg _ (ih _ _)

theorem capScan_forall_nonneg : ∀ (costs : List ℚ) (cap : ℚ),
    (capScan cap costs).Forall (fun x => 0 ≤ x) := by
  intro costs
  induction costs with
  | nil => intro cap; simp [capScan]
  | cons c rest ih =>
    intro cap
    simp only [capScan, List.forall_cons]
    exact ⟨le_max_left _ _, ih _⟩

theorem capScan_chain_cons : ∀ (costs : List ℚ) (cap : ℚ),
    costs.Forall (fun x => 0 ≤ x) → 0 ≤ cap →
    List.Chain' (fun a b => b ≤ a) (cap :: capScan cap costs) := by
  intro costs
  induction costs with
  | nil => intro cap _ _; simp [capScan]
  | cons c rest ih =>
    intro cap hcosts hcap
    rw [List.forall_cons] at hcosts
    simp only [capScan]
    refine List.Chain'.cons ?_ (ih _ hcosts.2 (le_max_left _ _))
    exact max_le hcap (by linarith [hcosts.1])

theorem forall_nonneg_sum_nonneg : ∀ (l : List ℚ), l.Forall (fun x => 0 ≤ x) → 0 ≤ l.sum := by
  intro l
  induction l with
  | nil => intro _; simp
  | cons a rest ih =>
    intro h
    rw [List.forall_cons] at h
    simpa using add_nonneg h.1 (ih h.2)

theorem max_zero_sub_collapse (s y : ℚ) (hy : 0 ≤ y) :
    max 0 (max 0 s - y) = max 0 (s - y) := by
  rcases le_or_lt s 0 with h | h
  · rw [max_eq_left h, zero_sub, max_eq_left (by linarith), max_eq_left (by linarith)]
  · rw [max_eq_right h.le]

theorem capScan_cons (cap c : ℚ) (rest : List ℚ) :
    capScan cap (c :: rest) = max 0 (cap - c) :: capScan (max 0 (cap - c)) rest := rfl

theorem capScan_getLast : ∀ (costs : List ℚ) (cap : ℚ), costs ≠ [] →
    costs.Forall (fun x => 0 ≤ x) →
    (capScan cap costs).getLast? = some (max 0 (cap - costs.sum)) := by
  intro costs
  induction costs with
  | nil => intro cap h _; exact absurd rfl h
  | cons c rest ih =>
    intro cap _ hcosts
    rw [List.forall_cons] at hcosts
    cases rest with
    | nil => simp [capScan]
    | cons r rs =>
      have hne : (r :: rs : List ℚ) ≠ [] := by simp
      rw [capScan_cons, capScan_cons, List.getLast?_cons_cons, ← capScan_cons,
        ih (max 0 (cap - c)) hne hcosts.2]
      have hsum : 0 ≤ (r :: rs : List ℚ).sum :=
        forall_nonneg_sum_nonneg _ hcosts.2
      rw [max_zero_sub_collapse _ _ hsum]
      have harith : cap - c - (r :: rs : List ℚ).sum = cap - (c :: r :: rs : List ℚ).sum := by
        simp only [List.sum_cons]
        ring
      rw [harith]

theorem foldl_add_map {α : Type} (f : α → ℚ) :
    ∀ (l : List α) (a : ℚ), l.foldl (fun s x => s + f x) a = a + (l.map f).sum := by
  intro l
  induction l with
  | nil => intro a; simp
  | cons x rest ih =>
    intro a
    simp only [List.foldl_cons, List.map_cons, List.sum_cons]
    rw [ih]
    ring

/-! ## Claim C2 -/

/-- Claim C2 is false as stated: on the spec's worked example the weighted
sum is `0.35·0.2 + 0.25·0.3 + 0.25·0.2 + 0.15·0.2 = 0.225`, not `0.22`, so
`mentalLoadRaw = 0.5 × 0.225 = 0.1125 ≠ 0.11`, and the per-event calculator
yields `mentalLoad = 0.113 ≠ 0.11` and `capacityCost = 11.3 ≠ 11.0`. -/
theorem C2_worked_example_counterexample :
    mentalLoadRawOf 30 0.2 0.3 0.2 0.2 ≠ 0.11 ∧
    (computeSingleEvent c2event none).mentalLoad ≠ 0.11 ∧
    (computeSingleEvent c2event none).totalLoad ≠ 0.11 ∧
    (computeSingleEvent c2event none).capacityCost ≠ 11 := by
  norm_num [computeSingleEvent, c2event, lookupQ, lookupOrFalsy, mapSocialLoad,
    mentalLoadRawOf, clamp, round3, computeContextSwitch, BASELINES,
    getTimeOfDay, getHours, timeOfDayOfHour, List.lookup, round_eq]

/-- Claim C2, amended to the values the code actually produces on the
spec's worked example: the resolved weights are as the spec says
(complexity 0.2, scalar 1.0, role 0.3, emotional 0.2, social 0.2,
duration 30), but `mentalLoadRaw = 0.5 × 0.225 = 0.1125`,
`mentalLoad = clamp(0.1125) = 0.113` (3-decimal rounding, half up),
`totalLoad = 0.113`, and `capacityCost = 11.3`. -/
theorem C2_worked_example_amended :
    mentalLoadRawOf 30 0.2 0.3 0.2 0.2 = 0.1125 ∧
    (computeSingleEvent c2event none).explanation.complexity = 0.2 ∧
    (computeSingleEvent c2event none).explanation.meetingTypeScalar = 1 ∧
    (computeSingleEvent c2event none).explanation.roleLoad = 0.3 ∧
    (computeSingleEvent c2event none).explanation.emotionalLoad = 0.2 ∧
    (computeSingleEvent c2event none).explanation.socialLoad = 0.2 ∧
    (computeSingleEvent c2event none).durationMinutes = 30 ∧
    (computeSingleEvent c2event none).mentalLoad = 0.113 ∧
    (computeSingleEvent c2event none).totalLoad = 0.113 ∧
    (computeSingleEvent c2event none).capacityCost = 11.3 := by
  norm_num [computeSingleEvent, c2event, lookupQ, lookupOrFalsy, mapSocialLoad,
    mentalLoadRawOf, clamp, round3, computeContextSwitch, BASELINES,
    getTimeOfDay, getHours, timeOfDayOfHour, List.lookup, round_eq]

/-! ## Claim C5 -/

/-- Claim C5: on the empty input sequence the pipeline succeeds and
returns `events = []` and
`summary = { totalLoad: 0, capacityRemaining: 100, highRisk: false }`
(the `max(1, count)` divisor guard makes the mean 0 rather than a
division by zero). -/
theorem C5_empty_input :
    (processEvents []).events = [] ∧
    (processEvents []).summary.totalLoad = 0 ∧
    (processEvents []).summary.capacityRemaining = 100 ∧
    (processEvents []).summary.highRisk = false := by
  norm_num [processEvents, computeEventLoads, computeEventLoadsAux,
    buildDailySummary, clamp, round3, round_eq]

/-! ## Claim C9 -/

theorem mapSocialLoad_eq_spec (n : ℚ) : mapSocialLoad n = socialLoadSpec n := by
  unfold mapSocialLoad socialLoadSpec
  split_ifs <;> simp [lookupQ, BASELINES, List.lookup] <;> norm_num

theorem mapGapDampener_eq_spec (m : ℚ) : mapGapDampener m = gapDampenerSpec m := by
  unfold mapGapDampener gapDampenerSpec
  split_ifs <;> simp [lookupQ, BASELINES, List.lookup] <;> norm_num

theorem timeOfDayOfHour_eq_spec (h : ℤ) : timeOfDayOfHour h = (timeOfDaySpec h).1 := by
  unfold timeOfDayOfHour timeOfDaySpec
  split_ifs <;> simp

theorem timeOfDayMultiplier_eq_spec (h : ℤ) :
    lookupOrFalsy BASELINES.timeOfDayMultiplier (timeOfDayOfHour h) 1.0 =
      (timeOfDaySpec h).2 := by
  unfold timeOfDayOfHour timeOfDaySpec
  split_ifs <;> simp [lookupOrFalsy, BASELINES, List.lookup] <;> norm_num

/-- Claim C9: the three bucket functions are total (they are functions) and
agree with the spec's table everywhere, with inclusive upper bounds; in
particular an exactly-5-minute gap yields 1.0 and an exactly-15-minute gap
yields 0.8, and each time-of-day bucket carries the stated multiplier. -/
theorem C9_bucket_functions (n m : ℚ) (h : ℤ) :
    mapSocialLoad n = socialLoadSpec n ∧
    mapGapDampener m = gapDampenerSpec m ∧
    timeOfDayOfHour h = (timeOfDaySpec h).1 ∧
    lookupOrFalsy BASELINES.timeOfDayMultiplier (timeOfDayOfHour h) 1.0 =
      (timeOfDaySpec h).2 ∧
    mapGapDampener 5 = 1 ∧
    mapGapDampener 15 = 0.8 := by
  refine ⟨mapSocialLoad_eq_spec n, mapGapDampener_eq_spec m, timeOfDayOfHour_eq_spec h,
    timeOfDayMultiplier_eq_spec h, ?_, ?_⟩
  · rw [mapGapDampener_eq_spec]
    norm_num [gapDampenerSpec]
  · rw [mapGapDampener_eq_spec]
    norm_num [gapDampenerSpec]

/-! ## Claim C4 -/

/-- Claim C4: `computeContextSwitch` agrees with the spec's context-switch
model on every meeting and every (possibly absent) predecessor: 0 with no
predecessor, `clamp(topicCost × gapDampener)` otherwise, with topic cost
0.3 on shared tags and 1.0 otherwise, and the negative gap clamped to 0. -/
theorem C4_context_switch (event : ClassifiedMeeting) (prev : Option Enriched) :
    computeContextSwitch event prev = contextSwitchSpec event prev := by
  cases prev with
  | none => rfl
  | some p =>
    simp only [computeContextSwitch, contextSwitchSpec, mapGapDampener_eq_spec]
    have hov : ((event.classification.topic_tags.any fun tag =>
        p.ev.classification.topic_tags.contains tag) = true) ↔
        ∃ tag ∈ event.classification.topic_tags,
          tag ∈ p.ev.classification.topic_tags := by
      simp
    have hrel : lookupQ BASELINES.topicChangeCost "related_domain" 0 = 0.3 := by
      simp [lookupQ, BASELINES, List.lookup]
    have hunrel : lookupQ BASELINES.topicChangeCost "unrelated" 0 = 1 := by
      simp [lookupQ, BASELINES, List.lookup] <;> norm_num
    by_cases hcase : ∃ tag ∈ event.classification.topic_tags,
        tag ∈ p.ev.classification.topic_tags
    · rw [if_pos (hov.mpr hcase), if_pos hcase, hrel]
    · rw [if_neg (fun hh => hcase (hov.mp hh)), if_neg hcase, hunrel]

/-! ## Claim C6 -/

/-- Claim C6: in every enriched output, `mentalLoad`, `contextSwitchCost`
and `totalLoad` lie in [0, 1]; each clamped value is obtained by rounding
to 3 decimal places first and then restricting to [0, 1], in that order. -/
theorem C6_score_bounds (events : List ClassifiedMeeting) :
    ((computeEventLoads events).Forall fun e =>
      0 ≤ e.mentalLoad ∧ e.mentalLoad ≤ 1 ∧
      0 ≤ e.contextSwitchCost ∧ e.contextSwitchCost ≤ 1 ∧
      0 ≤ e.totalLoad ∧ e.totalLoad ≤ 1) ∧
    (∀ x : ℚ, clamp x = max 0 (min 1 (round3 x))) := by
  constructor
  · refine computeEventLoadsAux_forall _ (fun e p c => ?_) events none 100
    obtain ⟨x, hx⟩ := computeSingleEvent_mentalLoad_clamp e p
    obtain ⟨y, hy⟩ := computeSingleEvent_totalLoad_clamp e p
    refine ⟨?_, ?_, ?_, ?_, ?_, ?_⟩
    · show 0 ≤ (computeSingleEvent e p).mentalLoad
      rw [hx]; exact clamp_nonneg x
    · show (computeSingleEvent e p).mentalLoad ≤ 1
      rw [hx]; exact clamp_le_one x
    · show 0 ≤ (computeSingleEvent e p).contextSwitchCost
      rw [computeSingleEvent_contextSwitchCost_eq]
      exact computeContextSwitch_nonneg e p
    · show (computeSingleEvent e p).contextSwitchCost ≤ 1
      rw [computeSingleEvent_contextSwitchCost_eq]
      exact computeContextSwitch_le_one e p
    · show 0 ≤ (computeSingleEvent e p).totalLoad
      rw [hy]; exact clamp_nonneg y
    · show (computeSingleEvent e p).totalLoad ≤ 1
      rw [hy]; exact clamp_le_one y
  · intro x; rfl

/-! ## Claim C7 -/

theorem computeEventLoadsAux_map_durationMinutes :
    ∀ (evs : List ClassifiedMeeting) (prev : Option Enriched) (cap : ℚ),
      (computeEventLoadsAux prev cap evs).map (fun e => e.durationMinutes) =
        evs.map (fun e => max 15 (((e.«end» : ℚ) - (e.start : ℚ)) / 60000)) := by
  intro evs
  induction evs with
  | nil => intro prev cap; simp [computeEventLoadsAux]
  | cons e rest ih =>
    intro prev cap
    simp only [computeEventLoadsAux, List.map_cons]
    exact congrArg₂ _ (computeSingleEvent_durationMinutes_eq e prev) (ih _ _)

/-- Claim C7: every enriched meeting's `durationMinutes` equals
`max(15, (end − start) in minutes)`, hence is at least 15, regardless of
the recorded start/end (zero- or negative-length intervals included). -/
theorem C7_duration_floor (events : List ClassifiedMeeting) :
    (computeEventLoads events).map (fun e => e.durationMinutes) =
      events.map (fun e => max 15 (((e.«end» : ℚ) - (e.start : ℚ)) / 60000)) ∧
    (computeEventLoads events).Forall (fun e => 15 ≤ e.durationMinutes) := by
  constructor
  · exact computeEventLoadsAux_map_durationMinutes events none 100
  · refine computeEventLoadsAux_forall _ (fun e p c => ?_) events none 100
    show 15 ≤ (computeSingleEvent e p).durationMinutes
    rw [computeSingleEvent_durationMinutes_eq]
    exact le_max_left _ _

/-! ## Claim C8 -/

/-- Claim C8: when a meeting's classification labels are outside the known
enumerations, the lookups never fail — the per-event calculation proceeds
with the documented defaults: meeting-type complexity 0.3, meeting-type
scalar 1.0, role load 0.5, emotional load 0.4. -/
theorem C8_unknown_label_defaults (e : ClassifiedMeeting) (p : Option Enriched)
    (hmt : BASELINES.meetingType.lookup e.classification.meeting_type = none)
    (hms : BASELINES.meetingTypeScalar.lookup e.classification.meeting_type = none)
    (hrl : BASELINES.roleLoad.lookup e.classification.role = none)
    (hel : BASELINES.emotionalLoad.lookup e.classification.emotional_intensity = none) :
    (computeSingleEvent e p).explanation.complexity = 0.3 ∧
    (computeSingleEvent e p).explanation.meetingTypeScalar = 1 ∧
    (computeSingleEvent e p).explanation.roleLoad = 0.5 ∧
    (computeSingleEvent e p).explanation.emotionalLoad = 0.4 := by
  refine ⟨?_, ?_, ?_, ?_⟩
  · show lookupQ BASELINES.meetingType e.classification.meeting_type 0.3 = 0.3
    simp [lookupQ, hmt]
  · show lookupQ BASELINES.meetingTypeScalar e.classification.meeting_type 1.0 = 1
    simp [lookupQ, hms]
    norm_num
  · show lookupQ BASELINES.roleLoad e.classification.role 0.5 = 0.5
    simp [lookupQ, hrl]
  · show lookupQ BASELINES.emotionalLoad e.classification.emotional_intensity 0.4 = 0.4
    simp [lookupQ, hel]

/-- Witness for C8: the defaults are used at a concrete meeting whose four
labels are all unknown. -/
theorem C8_unknown_label_defaults_witness :
    (BASELINES.meetingType.lookup c8event.classification.meeting_type = none) ∧
    (BASELINES.meetingTypeScalar.lookup c8event.classification.meeting_type = none) ∧
    (BASELINES.roleLoad.lookup c8event.classification.role = none) ∧
    (BASELINES.emotionalLoad.lookup c8event.classification.emotional_intensity = none) ∧
    ((computeSingleEvent c8event none).explanation.complexity = 0.3 ∧
      (computeSingleEvent c8event none).explanation.meetingTypeScalar = 1 ∧
      (computeSingleEvent c8event none).explanation.roleLoad = 0.5 ∧
      (computeSingleEvent c8event none).explanation.emotionalLoad = 0.4) :=
  ⟨by decide, by decide, by decide, by decide,
    C8_unknown_label_defaults c8event none (by decide) (by decide) (by decide) (by decide)⟩

/-! ## Claim C3 -/

theorem computeEventLoadsAux_costs_nonneg (evs : List ClassifiedMeeting)
    (prev : Option Enriched) (cap : ℚ) :
    ((computeEventLoadsAux prev cap evs).map (fun e => e.capacityCost)).Forall
      (fun x => 0 ≤ x) := by
  rw [List.forall_map_iff]
  exact computeEventLoadsAux_forall _
    (fun e p c => computeSingleEvent_capacityCost_nonneg e p) evs prev cap

/-- Claim C3: the capacity fold starts from 100, updates at each meeting by
`max(0, previous − capacityCost)` and attaches the post-update value (the
mapped `capacityRemaining` values are exactly the spec's scan of the
attached costs from 100); consequently the attached values are
non-increasing along the sequence and never negative. -/
theorem C3_capacity_fold (events : List ClassifiedMeeting) :
    ((computeEventLoads events).map (fun e => e.capacityRemaining) =
      capScan 100 ((computeEventLoads events).map (fun e => e.capacityCost))) ∧
    List.Chain' (fun a b => b.capacityRemaining ≤ a.capacityRemaining)
      (computeEventLoads events) ∧
    (computeEventLoads events).Forall (fun e => 0 ≤ e.capacityRemaining) := by
  have hmap := computeEventLoadsAux_map_capacityRemaining events none 100
  have hcosts := computeEventLoadsAux_costs_nonneg events none 100
  refine ⟨hmap, ?_, ?_⟩
  · have hchain : List.Chain' (fun x y : ℚ => y ≤ x)
        ((computeEventLoadsAux none 100 events).map (fun e => e.capacityRemaining)) := by
      rw [hmap]
      exact (capScan_chain_cons _ 100 hcosts (by norm_num)).tail
    exact (List.chain'_map (fun e : Enriched => e.capacityRemaining)).mp hchain
  · have h2 := capScan_forall_nonneg
      ((computeEventLoadsAux none 100 events).map (fun e => e.capacityCost)) 100
    rw [← hmap, List.forall_map_iff] at h2
    exact h2

/-! ## Claim C10 -/

theorem buildDailySummary_capacityRemaining_eq (events : List Enriched) :
    (buildDailySummary events).capacityRemaining =
      max 0 (100 - (events.map (fun e => e.capacityCost)).sum) := by
  simp only [buildDailySummary]
  rw [foldl_add_map]
  norm_num

/-- Claim C10: for every non-empty input sequence, the `capacityRemaining`
attached to the last enriched meeting equals the summary's
`capacityRemaining`, and both equal `max(0, 100 − Σ capacityCost)`: since
every capacity cost is non-negative, iterating `max(0, ·)` at each step of
the fold agrees with applying the floor once to 100 minus the total sum. -/
theorem C10_last_capacity_eq_summary (events : List ClassifiedMeeting)
    (h : events ≠ []) :
    ((computeEventLoads events).map (fun e => e.capacityRemaining)).getLast? =
      some ((buildDailySummary (computeEventLoads events)).capacityRemaining) ∧
    (buildDailySummary (computeEventLoads events)).capacityRemaining =
      max 0 (100 - ((computeEventLoads events).map (fun e => e.capacityCost)).sum) := by
  have hmap := computeEventLoadsAux_map_capacityRemaining events none 100
  have hcosts := computeEventLoadsAux_costs_nonneg events none 100
  obtain ⟨e0, rest, rfl⟩ := List.exists_cons_of_ne_nil h
  have hne : ((computeEventLoadsAux none 100 (e0 :: rest)).map (fun e => e.capacityCost)) ≠ [] := by
    simp [computeEventLoadsAux]
  refine ⟨?_, buildDailySummary_capacityRemaining_eq _⟩
  rw [buildDailySummary_capacityRemaining_eq]
  show ((computeEventLoadsAux none 100 (e0 :: rest)).map (fun e => e.capacityRemaining)).getLast? =
    some (max 0
      (100 - ((computeEventLoadsAux none 100 (e0 :: rest)).map (fun e => e.capacityCost)).sum))
  rw [hmap, capScan_getLast _ _ hne hcosts]

/-- Witness for C10 at the concrete one-element sequence. -/
theorem C10_last_capacity_eq_summary_witness :
    ([c10event] ≠ ([] : List ClassifiedMeeting)) ∧
    (((computeEventLoads [c10event]).map (fun e => e.capacityRemaining)).getLast? =
      some ((buildDailySummary (computeEventLoads [c10event])).capacityRemaining) ∧
    (buildDailySummary (computeEventLoads [c10event])).capacityRemaining =
      max 0 (100 - ((computeEventLoads [c10event]).map (fun e => e.capacityCost)).sum)) :=
  ⟨by simp, C10_last_capacity_eq_summary [c10event] (by simp)⟩

/-! ## Claim C1 -/

theorem jDateSub_none_right (a : Option ℤ) : jDateSub a none = none := by
  cases a <;> rfl

theorem jDiv_none_left (b : JSNum) : jDiv none b = none := rfl

theorem jMax_none_right (a : JSNum) : jMax a none = none := by
  cases a <;> rfl

theorem jAdd_none_right (a : JSNum) : jAdd a none = none := by
  cases a <;> rfl

theorem jSub_none_right (a : JSNum) : jSub a none = none := by
  cases a <;> rfl

theorem computeSingleEventJS_durationMinutes (e : RawEvent) (p : Option JSEnriched) :
    (computeSingleEventJS e p).durationMinutes =
      jMax (some 15) (jDiv (jDateSub e.«end» e.start) (some 60000)) := rfl

theorem computeSingleEventJS_mentalLoad_shape (e : RawEvent) (p : Option JSEnriched) :
    ∃ w s : ℚ, (computeSingleEventJS e p).mentalLoad =
      clampJS (jMul (jMul (jDiv (computeSingleEventJS e p).durationMinutes (some 60))
        (some w)) (some s)) :=
  ⟨_, _, rfl⟩

theorem computeSingleEventJS_totalLoad (e : RawEvent) (p : Option JSEnriched) :
    (computeSingleEventJS e p).totalLoad =
      clampJS (jAdd (computeSingleEventJS e p).mentalLoad
        (computeSingleEventJS e p).contextSwitchCost) := rfl

theorem computeSingleEventJS_capacityCost (e : RawEvent) (p : Option JSEnriched) :
    (computeSingleEventJS e p).capacityCost =
      jMul (computeSingleEventJS e p).totalLoad (some 100) := rfl

/-- Claim C1 is false as stated: on an input containing a meeting whose
start timestamp is unparseable, the pipeline does not fail — there is no
`InvalidTimestamp` (or any other) failure path in the code, which is
faithfully modelled here as a total function — and it returns an
ordinarily-structured enriched sequence and summary in which the affected
numeric fields are NaN. -/
theorem C1_invalid_timestamp_counterexample :
    (processEventsJS [c1BadEvent]).events.length = 1 ∧
    ((processEventsJS [c1BadEvent]).events.map fun e => e.durationMinutes) = [none] ∧
    ((processEventsJS [c1BadEvent]).events.map fun e => e.mentalLoad) = [none] ∧
    ((processEventsJS [c1BadEvent]).events.map fun e => e.totalLoad) = [none] ∧
    ((processEventsJS [c1BadEvent]).events.map fun e => e.capacityCost) = [none] ∧
    ((processEventsJS [c1BadEvent]).events.map fun e => e.capacityRemaining) = [none] ∧
    (processEventsJS [c1BadEvent]).summary.totalLoad = none ∧
    (processEventsJS [c1BadEvent]).summary.capacityRemaining = none ∧
    (processEventsJS [c1BadEvent]).summary.highRisk = false := by
  decide

/-- Claim C1, amended to what the code does: a malformed timestamp is
neither surfaced as an error nor replaced by "now" or zero; the pipeline
returns normally and the NaN produced by the invalid date silently
propagates through `durationMinutes`, `mentalLoad`, `totalLoad`,
`capacityCost`, the attached `capacityRemaining`, and the summary's
`totalLoad` and `capacityRemaining` (and `NaN < 20` leaves `highRisk`
false). -/
theorem C1_invalid_timestamp_amended (e : RawEvent) (h : e.start = none) :
    (computeSingleEventJS e none).durationMinutes = none ∧
    (computeSingleEventJS e none).mentalLoad = none ∧
    (computeSingleEventJS e none).totalLoad = none ∧
    (computeSingleEventJS e none).capacityCost = none ∧
    ((processEventsJS [e]).events.map fun x => x.capacityRemaining) = [none] ∧
    (processEventsJS [e]).summary.totalLoad = none ∧
    (processEventsJS [e]).summary.capacityRemaining = none ∧
    (processEventsJS [e]).summary.highRisk = false := by
  have hdur : (computeSingleEventJS e none).durationMinutes = none := by
    rw [computeSingleEventJS_durationMinutes, h, jDateSub_none_right, jDiv_none_left,
      jMax_none_right]
  obtain ⟨w, s, hml0⟩ := computeSingleEventJS_mentalLoad_shape e none
  have hml : (computeSingleEventJS e none).mentalLoad = none := by
    rw [hml0, hdur]; rfl
  have htl : (computeSingleEventJS e none).totalLoad = none := by
    rw [computeSingleEventJS_totalLoad, hml]; rfl
  have hcc : (computeSingleEventJS e none).capacityCost = none := by
    rw [computeSingleEventJS_capacityCost, htl]; rfl
  refine ⟨hdur, hml, htl, hcc, ?_, ?_, ?_, ?_⟩
  · show [jMax (some 0) (jSub (some 100) (computeSingleEventJS e none).capacityCost)] =
      [none]
    rw [hcc, jSub_none_right, jMax_none_right]
  · show clampJS (jDiv (jAdd (some 0) (computeSingleEventJS e none).totalLoad) _) = none
    rw [htl, jAdd_none_right]
    rfl
  · show jMax (some 0)
      (jSub (some 100) (jAdd (some 0) (computeSingleEventJS e none).capacityCost)) = none
    rw [hcc, jAdd_none_right, jSub_none_right, jMax_none_right]
  · show jLt (jMax (some 0)
      (jSub (some 100) (jAdd (some 0) (computeSingleEventJS e none).capacityCost)))
      (some 20) = false
    rw [hcc, jAdd_none_right, jSub_none_right, jMax_none_right]
    rfl

/-- Witness for the amended C1 at the concrete malformed input. -/
theorem C1_invalid_timestamp_amended_witness :
    (c1BadEvent.start = none) ∧
    ((computeSingleEventJS c1BadEvent none).durationMinutes = none ∧
      (computeSingleEventJS c1BadEvent none).mentalLoad = none ∧
      (computeSingleEventJS c1BadEvent none).totalLoad = none ∧
      (computeSingleEventJS c1BadEvent none).capacityCost = none ∧
      ((processEventsJS [c1BadEvent]).events.map fun x => x.capacityRemaining) = [none] ∧
      (processEventsJS [c1BadEvent]).summary.totalLoad = none ∧
      (processEventsJS [c1BadEvent]).summary.capacityRemaining = none ∧
      (processEventsJS [c1BadEvent]).summary.highRisk = false) :=
  ⟨rfl, C1_invalid_timestamp_amended c1BadEvent rfl⟩

end CogCal
